import Mathlib

/-!
Verification of the series-reconciliation and aggregation logic of the
hydromet4api examples repository (balance.py, cota.py, pronostico.py,
pozos_historicos.py, grafico_pozos.py).

The embedding models a JSON record of a time series as an `Obs`: a `date`
(timestamps are abstracted as natural numbers, order-isomorphic to the parsed
datetimes) together with the optional numeric fields that appear in the
payloads.  A pandas DataFrame built from a list of records is modelled as the
list of records itself; a column exists in the frame iff some record carries
the field, and column operations (`mean`, row-wise arithmetic) skip missing
values exactly as pandas skips NaN.  `df.sort_values('date')` is modelled as a
stable sort by date.  Numeric values are rationals.
-/

namespace Hydromet

/-- One record of a series payload: the parsed `date` plus the optional
numeric fields used by the scripts (`value` for head series in cota.py and the
well scripts, `value_step_in` / `value_step_out` / `value_step_rate` for the
balance series).  A missing field models a key absent from the JSON record. -/
structure Obs where
  date : Nat
  value : Option Rat := none
  value_step_in : Option Rat := none
  value_step_out : Option Rat := none
  value_step_rate : Option Rat := none
deriving DecidableEq, Repr

/-- Comparison of records by their `date` column, the sort key used by
`sort_values('date')`. -/
def dateLe (a b : Obs) : Prop := a.date ≤ b.date

instance : DecidableRel dateLe := fun a b => Nat.decLe a.date b.date

instance : IsTotal Obs dateLe := ⟨fun a b => Nat.le_total a.date b.date⟩

instance : IsTrans Obs dateLe := ⟨fun _ _ _ h₁ h₂ => Nat.le_trans h₁ h₂⟩

/-- Model of `df.sort_values('date')`: a stable sort of the records ascending
by date (ties keep their input order). -/
def sort_values (l : List Obs) : List Obs := l.insertionSort dateLe

/-- Model of `df['date'].max()`: the greatest date of the frame (the scripts
only read it on non-empty frames, where the `0` seed is absorbed). -/
def dateMax (l : List Obs) : Nat := l.foldl (fun m o => max m o.date) 0

/-- Embedding of `procesar_datos` (identical in balance.py lines 39-60 and
cota.py lines 38-59): sort both record lists by date and compute
`fecha_transicion`, which the code sets to `df_hist['date'].max()` only when
BOTH sorted frames are non-empty, and leaves `None` otherwise. -/
def procesar_datos (datos_historicos datos_metamodelo : List Obs) :
    List Obs × List Obs × Option Nat :=
  let df_hist := sort_values datos_historicos
  let df_modelo := sort_values datos_metamodelo
  let fecha_transicion : Option Nat :=
    if df_hist ≠ [] ∧ df_modelo ≠ [] then some (dateMax df_hist) else none
  (df_hist, df_modelo, fecha_transicion)

/-- Embedding of the forecast filter of `crear_grafico_balance` (balance.py
lines 102-107, repeated in `crear_grafico_combinado` and
`crear_grafico_evolucion_total`): when a transition date exists keep only the
model records strictly after it, otherwise keep the whole model frame. -/
def df_futuro (df_modelo : List Obs) (fecha_transicion : Option Nat) : List Obs :=
  match fecha_transicion with
  | some t => df_modelo.filter (fun o => t < o.date)
  | none => df_modelo

/-- The reconciled view of one (historical, forecast) pair, in the vocabulary
of the specification: the sorted historical frame, the filtered forecast tail,
and the optional transition date. -/
structure ReconciledSeries where
  historical : List Obs
  forecastTail : List Obs
  transition : Option Nat
deriving DecidableEq, Repr

/-- The reconcile operation of the specification, assembled from the code:
`procesar_datos` followed by the forecast filter of the chart functions. -/
def reconcile (h f : List Obs) : ReconciledSeries :=
  let p := procesar_datos h f
  ⟨p.1, df_futuro p.2.1 p.2.2, p.2.2⟩

/-! ### Basic facts about the sort and the date maximum -/

theorem sort_values_perm (l : List Obs) : List.Perm (sort_values l) l :=
  List.perm_insertionSort dateLe l

theorem sort_values_sorted (l : List Obs) : List.Sorted dateLe (sort_values l) :=
  List.sorted_insertionSort dateLe l

theorem sort_values_eq_nil_iff (l : List Obs) : sort_values l = [] ↔ l = [] := by
  constructor
  · intro h
    have := (sort_values_perm l).symm
    rw [h] at this
    exact this.eq_nil
  · intro h
    rw [h]
    rfl

theorem dateMax_perm {l₁ l₂ : List Obs} (p : List.Perm l₁ l₂) : dateMax l₁ = dateMax l₂ := by
  unfold dateMax
  refine p.foldl_eq' ?_ 0
  intro x _ y _ z
  simp only [Nat.max_assoc]
  rw [Nat.max_comm x.date y.date]

theorem dateMax_sort_values (l : List Obs) : dateMax (sort_values l) = dateMax l :=
  dateMax_perm (sort_values_perm l)

/-- Strict comparison of records by date, used to show that a sorted list with
pairwise-distinct dates is determined by its multiset of records. -/
def dateLt (a b : Obs) : Prop := a.date < b.date

instance : IsAntisymm Obs dateLt :=
  ⟨fun _ _ h₁ h₂ => absurd (Nat.lt_trans h₁ h₂) (Nat.lt_irrefl _)⟩

theorem sorted_dateLt_of_nodup {l : List Obs} (hs : List.Sorted dateLe l)
    (hn : (l.map Obs.date).Nodup) : List.Sorted dateLt l := by
  have hne : l.Pairwise (fun a b : Obs => a.date ≠ b.date) := by
    rw [List.Nodup, List.pairwise_map] at hn
    exact hn
  exact (hs.and hne).imp (fun h => Nat.lt_of_le_of_ne h.1 h.2)

theorem sort_values_eq_of_perm {l₁ l₂ : List Obs} (p : List.Perm l₁ l₂)
    (hn : (l₂.map Obs.date).Nodup) : sort_values l₁ = sort_values l₂ := by
  have ps : List.Perm (sort_values l₁) (sort_values l₂) :=
    ((sort_values_perm l₁).trans p).trans (sort_values_perm l₂).symm
  have hn₂ : ((sort_values l₂).map Obs.date).Nodup :=
    (((sort_values_perm l₂).map Obs.date).nodup_iff).mpr hn
  have hn₁ : ((sort_values l₁).map Obs.date).Nodup :=
    ((ps.map Obs.date).nodup_iff).mpr hn₂
  exact List.eq_of_perm_of_sorted ps
    (sorted_dateLt_of_nodup (sort_values_sorted l₁) hn₁)
    (sorted_dateLt_of_nodup (sort_values_sorted l₂) hn₂)

theorem sort_values_idem (l : List Obs) : sort_values (sort_values l) = sort_values l :=
  (sort_values_sorted l).insertionSort_eq

/-! ### Example records (the scenario of the specification, section 8) -/

/-- Historical record of the specification's worked scenario. -/
def obsH1 : Obs := ⟨1, none, some 100, some 40, none⟩

/-- First forecast record of the scenario: it shares the historical end date. -/
def obsF1 : Obs := ⟨1, none, some 999, none, none⟩

/-- Second forecast record of the scenario, strictly after the transition. -/
def obsF2 : Obs := ⟨2, none, some 50, some 10, none⟩

/-! ### C1: the transition date -/

/-- C1 (counterexample): with a non-empty historical series and an empty
forecast series, `procesar_datos` leaves the transition undefined, and the
same historical series paired with a non-empty forecast gets a defined
transition — so the transition does depend on whether the forecast is
empty, contrary to the claim. -/
theorem transition_depends_on_forecast :
    ([obsH1] : List Obs) ≠ [] ∧
    (procesar_datos [obsH1] []).2.2 = none ∧
    (procesar_datos [obsH1] [obsF1, obsF2]).2.2 = some 1 := by
  refine ⟨by decide, by decide, by decide⟩

/-- C1 (amended): the transition of `procesar_datos` equals the maximum
timestamp of the historical series exactly when BOTH the historical and the
forecast series are non-empty, and is undefined when either is empty. -/
theorem procesar_datos_transition (H F : List Obs) :
    (procesar_datos H F).2.2 = if H = [] ∨ F = [] then none else some (dateMax H) := by
  by_cases h1 : H = []
  · subst h1
    simp [procesar_datos, sort_values]
  · by_cases h2 : F = []
    · subst h2
      simp [procesar_datos, sort_values, h1]
    · have hsH : sort_values H ≠ [] := fun h => h1 ((sort_values_eq_nil_iff H).mp h)
      have hsF : sort_values F ≠ [] := fun h => h2 ((sort_values_eq_nil_iff F).mp h)
      simp [procesar_datos, h1, h2, hsH, hsF, dateMax_sort_values]

/-! ### C2: the forecast tail -/

/-- C2 (confirmed): when the transition is defined the forecast tail is the
sorted forecast restricted to records strictly after it — in particular no
record dated exactly at the transition appears — and when the transition is
undefined the tail is the whole sorted forecast. -/
theorem reconcile_forecastTail_spec (H F : List Obs) :
    (∀ t, (reconcile H F).transition = some t →
      (reconcile H F).forecastTail = (sort_values F).filter (fun o => t < o.date) ∧
      ∀ o ∈ (reconcile H F).forecastTail, t < o.date ∧ o.date ≠ t) ∧
    ((reconcile H F).transition = none → (reconcile H F).forecastTail = sort_values F) := by
  constructor
  · intro t ht
    have htail : (reconcile H F).forecastTail
        = df_futuro (sort_values F) (procesar_datos H F).2.2 := rfl
    have ht' : (procesar_datos H F).2.2 = some t := ht
    rw [ht'] at htail
    refine ⟨htail, ?_⟩
    intro o ho
    rw [htail, df_futuro] at ho
    have := List.of_mem_filter ho
    have hlt : t < o.date := by simpa using this
    exact ⟨hlt, fun h => absurd (h ▸ hlt) (Nat.lt_irrefl t)⟩
  · intro ht
    have htail : (reconcile H F).forecastTail
        = df_futuro (sort_values F) (procesar_datos H F).2.2 := rfl
    have ht' : (procesar_datos H F).2.2 = none := ht
    rw [ht'] at htail
    exact htail

/-- C2 (witness): the specification's scenario — the transition is the shared
date 1, the forecast record at date 1 is excluded and only the record at
date 2 survives. -/
theorem reconcile_forecastTail_spec_witness :
    (reconcile [obsH1] [obsF1, obsF2]).forecastTail
      = (sort_values [obsF1, obsF2]).filter (fun o => 1 < o.date) ∧
    ∀ o ∈ (reconcile [obsH1] [obsF1, obsF2]).forecastTail, 1 < o.date ∧ o.date ≠ 1 :=
  (reconcile_forecastTail_spec [obsH1] [obsF1, obsF2]).1 1 (by decide)

/-! ### C3: the historical component -/

/-- C3 (confirmed): the historical component of `procesar_datos` is a
permutation of the historical input, sorted ascending by timestamp — nothing
is dropped and nothing is added. -/
theorem procesar_datos_historical_sorted_perm (H F : List Obs) :
    List.Perm (procesar_datos H F).1 H ∧ List.Sorted dateLe (procesar_datos H F).1 :=
  ⟨sort_values_perm H, sort_values_sorted H⟩

/-! ### C8: invariance under reordering of the inputs -/

/-- C8 (counterexample): two historical records share a timestamp but differ
in value; swapping them permutes the input yet changes the reconciled
historical component, because the stable sort keeps ties in input order.  So
`reconcile` is not invariant under permutation of inputs with duplicate
timestamps. -/
theorem reconcile_not_permutation_invariant :
    List.Perm [⟨1, none, some 1, none, none⟩, ⟨1, none, some 0, none, none⟩]
      ([⟨1, none, some 0, none, none⟩, ⟨1, none, some 1, none, none⟩] : List Obs) ∧
    reconcile [⟨1, none, some 1, none, none⟩, ⟨1, none, some 0, none, none⟩] []
      ≠ reconcile [⟨1, none, some 0, none, none⟩, ⟨1, none, some 1, none, none⟩] [] := by
  exact ⟨List.Perm.swap _ _ _, by decide⟩

/-- C8 (amended): sorting the inputs first changes nothing
(`reconcile (sort H) (sort F) = reconcile (H, F)`), and the result is
invariant under arbitrary permutation of the inputs whenever each series has
pairwise-distinct timestamps; with duplicate timestamps only the tie order can
move, as the counterexample shows. -/
theorem reconcile_perm_invariant (H F H' F' : List Obs)
    (pH : List.Perm H' H) (pF : List.Perm F' F)
    (hH : (H.map Obs.date).Nodup) (hF : (F.map Obs.date).Nodup) :
    reconcile (sort_values H) (sort_values F) = reconcile H F ∧
    reconcile H' F' = reconcile H F := by
  have e1 : sort_values (sort_values H) = sort_values H := sort_values_idem H
  have e2 : sort_values (sort_values F) = sort_values F := sort_values_idem F
  have e3 : sort_values H' = sort_values H := sort_values_eq_of_perm pH hH
  have e4 : sort_values F' = sort_values F := sort_values_eq_of_perm pF hF
  constructor
  · simp only [reconcile, procesar_datos, e1, e2]
  · simp only [reconcile, procesar_datos, e3, e4]

/-- C8 (witness): a two-record historical series with distinct dates, given in
reversed order, reconciles to the same result as in sorted order. -/
theorem reconcile_perm_invariant_witness :
    reconcile [obsF2, obsH1] [obsF1] = reconcile [obsH1, obsF2] [obsF1] :=
  (reconcile_perm_invariant [obsH1, obsF2] [obsF1] [obsF2, obsH1] [obsF1]
    (by decide) (by decide) (by decide) (by decide)).2

/-! ### Zone aggregation (balance.py lines 258-341 and 516-523)

`generar_graficos_todas_zonas` collects, for every zone whose processed
frames are not both empty, the PAIR `(df_hist, df_modelo)` returned by
`procesar_datos` — the full sorted model frame, not the filtered future part —
and hands the resulting dictionary to the comparison charts. -/

/-- Entries of one column of a frame, with missing values (NaN) skipped, as
every pandas reduction does. -/
def colVals (f : Obs → Option Rat) (l : List Obs) : List Rat := l.filterMap f

/-- Model of `c in df.columns` for a frame built from records: the column
exists iff some record carries the field. -/
def colExists (f : Obs → Option Rat) (l : List Obs) : Bool :=
  l.any fun o => (f o).isSome

/-- Model of `df[c].mean()`: the arithmetic mean of the non-missing entries
(meaningful whenever the column exists). -/
def colMean (f : Obs → Option Rat) (l : List Obs) : Rat :=
  (colVals f l).sum / (colVals f l).length

/-- The `df_completo[c].mean() if c in df_completo.columns else 0` pattern of
`crear_grafico_comparacion_zonas` (balance.py lines 268-270). -/
def mean_or_zero (f : Obs → Option Rat) (l : List Obs) : Rat :=
  if colExists f l then colMean f l else 0

/-- Model of a pandas `Series.mean()` that may be applied to an all-missing
series: pandas then yields NaN, modelled as `none`. -/
def meanOpt (vals : List Rat) : Option Rat :=
  if vals = [] then none else some (vals.sum / vals.length)

/-- Row-wise `value_step_in - value_step_out`: NaN (here `none`) unless the
record carries both fields, exactly as pandas propagates NaN through
arithmetic. -/
def rowNeto (o : Obs) : Option Rat :=
  match o.value_step_in, o.value_step_out with
  | some a, some b => some (a - b)
  | _, _ => none

/-- Embedding of the net-balance computation of
`crear_grafico_balance_neto_zonas` (balance.py lines 330-336):
`(df['value_step_in'] - df['value_step_out']).mean()` when both columns
exist, else the literal `0`. -/
def netoZona (df_completo : List Obs) : Option Rat :=
  if colExists (fun o => o.value_step_in) df_completo
      && colExists (fun o => o.value_step_out) df_completo then
    meanOpt (df_completo.filterMap rowNeto)
  else some 0

/-- Embedding of the data loop of `crear_grafico_comparacion_zonas`
(balance.py lines 261-271): for each zone the stored historical and model
frames are concatenated, zones with an empty concatenation are skipped, and
the three per-field means (or 0 for an absent column) are recorded. -/
def crear_grafico_comparacion_zonas
    (datos_por_zona : List (String × List Obs × List Obs)) :
    List (String × Rat × Rat × Rat) :=
  datos_por_zona.filterMap fun z =>
    let df_completo := z.2.1 ++ z.2.2
    if df_completo ≠ [] then
      some (z.1, mean_or_zero (fun o => o.value_step_in) df_completo,
        mean_or_zero (fun o => o.value_step_out) df_completo,
        mean_or_zero (fun o => o.value_step_rate) df_completo)
    else none

/-- Embedding of the data loop of `crear_grafico_balance_neto_zonas`
(balance.py lines 324-338). -/
def crear_grafico_balance_neto_zonas
    (datos_por_zona : List (String × List Obs × List Obs)) :
    List (String × Option Rat) :=
  datos_por_zona.filterMap fun z =>
    let df_completo := z.2.1 ++ z.2.2
    if df_completo ≠ [] then some (z.1, netoZona df_completo) else none

/-- Embedding of the collection loop of `generar_graficos_todas_zonas`
(balance.py lines 502-523): each zone's raw series are processed with
`procesar_datos`; a zone whose two processed frames are both empty is skipped
(`continue`), every other zone stores the pair of FULL sorted frames. -/
def generarDatosPorZona (zonas : List (String × List Obs × List Obs)) :
    List (String × List Obs × List Obs) :=
  zonas.filterMap fun z =>
    let p := procesar_datos z.2.1 z.2.2
    if p.1 = [] ∧ p.2.1 = [] then none else some (z.1, p.1, p.2.1)

/-- Embedding of the transition bookkeeping of `crear_grafico_evolucion_total`
(balance.py lines 373-396): the loop over the zone dictionary overwrites
`fecha_transicion` with the current zone's historical maximum whenever that
zone has a non-empty model frame and a non-empty historical frame. -/
def evolucion_fecha_transicion
    (datos_por_zona : List (String × List Obs × List Obs)) : Option Nat :=
  datos_por_zona.foldl
    (fun fecha z => if z.2.2 ≠ [] ∧ z.2.1 ≠ [] then some (dateMax z.2.1) else fecha)
    none

/-! ### C4: what the zone aggregates range over -/

/-- C4 (counterexample): a zone whose single forecast record is dated exactly
at the transition still contributes that record to the comparison chart's
means — the chart reports the step-in mean 1099/2 over historical plus FULL
forecast, while the mean over historical plus forecastTail is 100. -/
theorem comparacion_includes_pre_transition_forecast :
    crear_grafico_comparacion_zonas (generarDatosPorZona [("z", [obsH1], [obsF1])])
      = [("z", 1099/2, 40, 0)] ∧
    mean_or_zero (fun o => o.value_step_in)
      ((reconcile [obsH1] [obsF1]).historical ++ (reconcile [obsH1] [obsF1]).forecastTail)
      = 100 ∧
    ((1099/2 : Rat) ≠ 100) := by
  refine ⟨?_, ?_, by norm_num⟩
  · have hdatos : generarDatosPorZona [("z", [obsH1], [obsF1])]
        = [("z", [obsH1], [obsF1])] := by decide
    rw [hdatos]
    simp only [crear_grafico_comparacion_zonas, List.filterMap_cons, List.filterMap_nil]
    norm_num [mean_or_zero, colExists, colMean, colVals, List.filterMap_cons, obsH1, obsF1]
    rfl
  · have h1 : (reconcile [obsH1] [obsF1]).historical = [obsH1] := by decide
    have h2 : (reconcile [obsH1] [obsF1]).forecastTail = [] := by decide
    rw [h1, h2]
    norm_num [mean_or_zero, colExists, colMean, colVals, List.filterMap_cons, obsH1]

/-- C4 (amended): for every zone of the aggregator's dictionary whose
concatenated frames are non-empty, the comparison chart records the per-field
means and the net-balance chart records the net balance computed over the
stored historical frame concatenated with the FULL forecast frame — forecast
records at or before the transition are not excluded. -/
theorem aggregates_over_full_concatenation
    (datos : List (String × List Obs × List Obs))
    (z : String × List Obs × List Obs) (hz : z ∈ datos)
    (hne : z.2.1 ++ z.2.2 ≠ []) :
    (z.1, mean_or_zero (fun o => o.value_step_in) (z.2.1 ++ z.2.2),
      mean_or_zero (fun o => o.value_step_out) (z.2.1 ++ z.2.2),
      mean_or_zero (fun o => o.value_step_rate) (z.2.1 ++ z.2.2))
      ∈ crear_grafico_comparacion_zonas datos ∧
    (z.1, netoZona (z.2.1 ++ z.2.2)) ∈ crear_grafico_balance_neto_zonas datos := by
  constructor
  · exact List.mem_filterMap.mpr ⟨z, hz, by simp [crear_grafico_comparacion_zonas, hne]⟩
  · exact List.mem_filterMap.mpr ⟨z, hz, by simp [crear_grafico_balance_neto_zonas, hne]⟩

/-- C4 (witness): the aggregate entries of a concrete one-zone dictionary. -/
theorem aggregates_over_full_concatenation_witness :
    ("z", mean_or_zero (fun o => o.value_step_in) ([obsH1] ++ [obsF1]),
      mean_or_zero (fun o => o.value_step_out) ([obsH1] ++ [obsF1]),
      mean_or_zero (fun o => o.value_step_rate) ([obsH1] ++ [obsF1]))
      ∈ crear_grafico_comparacion_zonas [("z", [obsH1], [obsF1])] ∧
    ("z", netoZona ([obsH1] ++ [obsF1]))
      ∈ crear_grafico_balance_neto_zonas [("z", [obsH1], [obsF1])] :=
  aggregates_over_full_concatenation [("z", [obsH1], [obsF1])]
    ("z", [obsH1], [obsF1]) (by decide) (by decide)

/-! ### C5: the net balance -/

/-- Sum and length bookkeeping for the row-wise net balance on a frame whose
records all carry both balance fields. -/
theorem rowNeto_stats (l : List Obs)
    (hall : ∀ o ∈ l, o.value_step_in.isSome ∧ o.value_step_out.isSome) :
    (l.filterMap rowNeto).length = l.length ∧
    (l.filterMap rowNeto).sum
      = (colVals (fun o => o.value_step_in) l).sum
        - (colVals (fun o => o.value_step_out) l).sum ∧
    (colVals (fun o => o.value_step_in) l).length = l.length ∧
    (colVals (fun o => o.value_step_out) l).length = l.length := by
  induction l with
  | nil => simp [colVals]
  | cons o l ih =>
    obtain ⟨ho, hl⟩ := List.forall_mem_cons.mp hall
    obtain ⟨a, ha⟩ := Option.isSome_iff_exists.mp ho.1
    obtain ⟨b, hb⟩ := Option.isSome_iff_exists.mp ho.2
    obtain ⟨ih1, ih2, ih3, ih4⟩ := ih hl
    have hr : rowNeto o = some (a - b) := by
      simp [rowNeto, ha, hb]
    have e1 : (o :: l).filterMap rowNeto = (a - b) :: l.filterMap rowNeto := by
      simp [List.filterMap_cons, hr]
    have e2 : colVals (fun x => x.value_step_in) (o :: l)
        = a :: colVals (fun x => x.value_step_in) l := by
      simp [colVals, List.filterMap_cons, ha]
    have e3 : colVals (fun x => x.value_step_out) (o :: l)
        = b :: colVals (fun x => x.value_step_out) l := by
      simp [colVals, List.filterMap_cons, hb]
    refine ⟨?_, ?_, ?_, ?_⟩
    · simp [e1, ih1]
    · rw [e1, e2, e3, List.sum_cons, List.sum_cons, List.sum_cons, ih2]
      ring
    · simp [e2, ih3]
    · simp [e3, ih4]

/-- First record of the mixed-fields counterexample: carries both fields. -/
def obsN1 : Obs := ⟨1, none, some 10, some 0, none⟩

/-- Second record of the mixed-fields counterexample: carries only step-in. -/
def obsN2 : Obs := ⟨2, none, some 20, none, none⟩

/-- C5 (counterexample): both balance columns exist for the zone, yet the
net-balance chart reports 10 — the mean of the row-wise differences over the
single record carrying both fields — while the difference of the per-field
means is 15. -/
theorem neto_not_difference_of_means :
    colExists (fun o => o.value_step_in) ([obsN1] ++ [obsN2]) = true ∧
    colExists (fun o => o.value_step_out) ([obsN1] ++ [obsN2]) = true ∧
    crear_grafico_balance_neto_zonas [("z", [obsN1], [obsN2])] = [("z", some 10)] ∧
    colMean (fun o => o.value_step_in) ([obsN1] ++ [obsN2])
      - colMean (fun o => o.value_step_out) ([obsN1] ++ [obsN2]) = 15 ∧
    ((10 : Rat) ≠ 15) := by
  refine ⟨by decide, by decide, ?_, ?_, by norm_num⟩
  · simp only [crear_grafico_balance_neto_zonas, List.filterMap_cons, List.filterMap_nil]
    norm_num [netoZona, meanOpt, colExists, rowNeto, obsN1, obsN2, List.filterMap_cons]
    rfl
  · norm_num [colMean, colVals, List.filterMap_cons, obsN1, obsN2]

/-- C5 (amended): when both balance columns exist, the net balance is the mean
of the row-wise differences over the records that carry BOTH fields; whenever
every record of the (non-empty) frame carries both fields this equals
mean(step_in) minus mean(step_out).  With mixed records the two quantities
differ, as the counterexample shows. -/
theorem netoZona_eq_mean_sub_mean (l : List Obs)
    (hall : ∀ o ∈ l, o.value_step_in.isSome ∧ o.value_step_out.isSome)
    (hne : l ≠ []) :
    netoZona l
      = some (colMean (fun o => o.value_step_in) l
          - colMean (fun o => o.value_step_out) l) := by
  obtain ⟨o, ho⟩ := List.exists_mem_of_ne_nil l hne
  obtain ⟨h1, h2, h3, h4⟩ := rowNeto_stats l hall
  have hin : colExists (fun x => x.value_step_in) l = true := by
    simp only [colExists, List.any_eq_true]
    exact ⟨o, ho, (hall o ho).1⟩
  have hout : colExists (fun x => x.value_step_out) l = true := by
    simp only [colExists, List.any_eq_true]
    exact ⟨o, ho, (hall o ho).2⟩
  have hfm : l.filterMap rowNeto ≠ [] := by
    intro h
    apply hne
    have := h1
    rw [h] at this
    exact List.length_eq_zero.mp this.symm
  rw [netoZona, if_pos (by rw [hin, hout]; rfl), meanOpt, if_neg hfm]
  rw [h2, h1]
  rw [colMean, colMean, h3, h4]
  rw [sub_div]

/-- Records of the specification's aggregation example: step-in 10 and 20,
step-out 5 and 5. -/
def obsP1 : Obs := ⟨1, none, some 10, some 5, none⟩

/-- Second record of the specification's aggregation example. -/
def obsP2 : Obs := ⟨2, none, some 20, some 5, none⟩

/-- C5 (witness): the specification's example — step-in mean 15, step-out
mean 5, net balance 10. -/
theorem netoZona_eq_mean_sub_mean_witness :
    netoZona [obsP1, obsP2]
      = some (colMean (fun o => o.value_step_in) [obsP1, obsP2]
          - colMean (fun o => o.value_step_out) [obsP1, obsP2]) ∧
    netoZona [obsP1, obsP2] = some 10 :=
  ⟨netoZona_eq_mean_sub_mean [obsP1, obsP2] (by decide) (by decide),
   by
    norm_num [netoZona, meanOpt, colExists, rowNeto, obsP1, obsP2, List.filterMap_cons]
    simp⟩

/-! ### C6: zones with no data at all -/

/-- C6 (counterexample): a zone with empty historical and empty forecast
series is skipped by the collection loop (`continue`), so it is absent from
the zone dictionary and hence from the net-balance comparison chart — it does
not appear there with a zero net balance. -/
theorem empty_zone_absent_from_neto_chart :
    generarDatosPorZona [("z1", [], []), ("z2", [obsH1], [obsF1])]
      = [("z2", [obsH1], [obsF1])] ∧
    (crear_grafico_balance_neto_zonas
        (generarDatosPorZona [("z1", [], []), ("z2", [obsH1], [obsF1])])).map Prod.fst
      = ["z2"] := by
  have hdatos : generarDatosPorZona [("z1", [], []), ("z2", [obsH1], [obsF1])]
      = [("z2", [obsH1], [obsF1])] := by decide
  refine ⟨hdatos, ?_⟩
  rw [hdatos]
  simp [crear_grafico_balance_neto_zonas]

/-- C6 (amended): every zone that appears in the net-balance comparison chart
is justified by an input zone with the same name at least one of whose series
is non-empty; a zone whose two series are both empty is excluded from the
per-zone charts AND from the net-balance chart alike. -/
theorem neto_chart_zones_have_data (zonas : List (String × List Obs × List Obs))
    (e : String × Option Rat)
    (he : e ∈ crear_grafico_balance_neto_zonas (generarDatosPorZona zonas)) :
    ∃ z ∈ zonas, z.1 = e.1 ∧ ¬(z.2.1 = [] ∧ z.2.2 = []) := by
  obtain ⟨d, hd, hde⟩ := List.mem_filterMap.mp he
  obtain ⟨z, hz, hzd⟩ := List.mem_filterMap.mp hd
  have hzd' : (if sort_values z.2.1 = [] ∧ sort_values z.2.2 = []
      then (none : Option (String × List Obs × List Obs))
      else some (z.1, sort_values z.2.1, sort_values z.2.2)) = some d := hzd
  by_cases hcond : sort_values z.2.1 = [] ∧ sort_values z.2.2 = []
  · rw [if_pos hcond] at hzd'
    exact absurd hzd' (by simp)
  · rw [if_neg hcond] at hzd'
    have hd_eq := Option.some.inj hzd'
    subst hd_eq
    have hde' : (if sort_values z.2.1 ++ sort_values z.2.2 ≠ []
        then some (z.1, netoZona (sort_values z.2.1 ++ sort_values z.2.2))
        else (none : Option (String × Option Rat))) = some e := hde
    by_cases hdf : sort_values z.2.1 ++ sort_values z.2.2 ≠ []
    · rw [if_pos hdf] at hde'
      have he_eq := Option.some.inj hde'
      subst he_eq
      refine ⟨z, hz, rfl, ?_⟩
      intro hboth
      exact hcond ⟨(sort_values_eq_nil_iff _).mpr hboth.1,
        (sort_values_eq_nil_iff _).mpr hboth.2⟩
    · rw [if_neg hdf] at hde'
      exact absurd hde' (by simp)

/-- A head-series record with a plain value, used by the C6 witness. -/
def obsV : Obs := ⟨1, some 5, none, none, none⟩

/-- C6 (witness): with one empty-empty zone and one zone holding a single
record, only the second zone can justify a chart entry. -/
theorem neto_chart_zones_have_data_witness :
    ∃ z ∈ [("z1", ([] : List Obs), ([] : List Obs)), ("z2", [obsV], [])],
      z.1 = "z2" ∧ ¬(z.2.1 = [] ∧ z.2.2 = []) :=
  neto_chart_zones_have_data [("z1", [], []), ("z2", [obsV], [])]
    ("z2", some 0) (by decide)

/-! ### C7: which transition the consolidated evolution carries -/

/-- A record carrying only a date, used by the C7 statements. -/
def obsD (n : Nat) : Obs := ⟨n, none, none, none, none⟩

/-- C7 (counterexample): with two zones whose historical maxima are 3 and 5
in iteration order, the consolidated evolution carries transition 5 — the
value of the zone processed last — not the earliest-available transition 3. -/
theorem evolucion_transition_not_earliest :
    evolucion_fecha_transicion
        [("z1", [obsD 3], [obsD 4]), ("z2", [obsD 5], [obsD 6])] = some 5 ∧
    min (dateMax [obsD 3]) (dateMax [obsD 5]) = 3 ∧
    (some 5 : Option Nat) ≠ some 3 := by
  refine ⟨by decide, by decide, by decide⟩

/-- A loop step over zones that all fail the `not df_modelo.empty and not
df_hist.empty` test leaves the running transition unchanged. -/
theorem evolucion_foldl_of_none (L : List (String × List Obs × List Obs))
    (acc : Option Nat) (h : ∀ w ∈ L, ¬(w.2.2 ≠ [] ∧ w.2.1 ≠ [])) :
    L.foldl
        (fun fecha z => if z.2.2 ≠ [] ∧ z.2.1 ≠ [] then some (dateMax z.2.1) else fecha)
        acc = acc := by
  induction L generalizing acc with
  | nil => rfl
  | cons w L ih =>
    rw [List.foldl_cons, if_neg (h w (List.mem_cons_self w L))]
    exact ih _ fun x hx => h x (List.mem_cons_of_mem w hx)

/-- C7 (amended): the consolidated evolution carries the historical maximum
of the LAST zone in iteration order having a non-empty model frame and a
non-empty historical frame — not the earliest transition across zones. -/
theorem evolucion_transition_last_zone
    (datos₁ datos₂ : List (String × List Obs × List Obs))
    (z : String × List Obs × List Obs)
    (hz : z.2.2 ≠ [] ∧ z.2.1 ≠ [])
    (hafter : ∀ w ∈ datos₂, ¬(w.2.2 ≠ [] ∧ w.2.1 ≠ [])) :
    evolucion_fecha_transicion (datos₁ ++ z :: datos₂) = some (dateMax z.2.1) := by
  rw [evolucion_fecha_transicion, List.foldl_append, List.foldl_cons, if_pos hz]
  exact evolucion_foldl_of_none datos₂ _ hafter

/-- C7 (witness): the last qualifying zone of a three-zone dictionary — the
third zone has an empty historical frame and cannot qualify — determines the
transition. -/
theorem evolucion_transition_last_zone_witness :
    evolucion_fecha_transicion
        ([("z1", [obsD 3], [obsD 4])] ++ ("z2", [obsD 5], [obsD 6]) :: [("z3", [], [obsD 7])])
      = some (dateMax [obsD 5]) ∧ dateMax [obsD 5] = 5 :=
  ⟨evolucion_transition_last_zone [("z1", [obsD 3], [obsD 4])] [("z3", [], [obsD 7])]
      ("z2", [obsD 5], [obsD 6]) (by decide) (by decide), by decide⟩

/-! ### HTTP fetch functions (all five scripts)

Each fetch is modelled as a function of the HTTP response it receives: a
status code plus the parsed body the API would have returned.  The functions
below reproduce, per script, what each Python fetch returns on a success
status and on any other status. -/

/-- An HTTP response: status code and parsed JSON body. -/
structure HttpResponse (α : Type) where
  status : Nat
  body : α

/-- A `{info: ..., data: [...]}` payload of the series endpoints; `data`
models `payload.get('data', [])` (absent key folded to the empty list) and
`info` models the metadata mapping. -/
structure SeriesPayload where
  info : List (String × String) := []
  data : List Obs := []
deriving DecidableEq, Repr

namespace Balance

/-- balance.py lines 12-17: the zone listing, `[]` on any non-200 status. -/
def obtener_zonas (resp : HttpResponse (List String)) : List String :=
  if resp.status = 200 then resp.body else []

/-- balance.py lines 19-27: the historical series, `[]` on failure. -/
def obtener_datos_historicos (resp : HttpResponse SeriesPayload) : List Obs :=
  if resp.status = 200 then resp.body.data else []

/-- balance.py lines 29-37: the model series, `[]` on failure. -/
def obtener_datos_metamodelo (resp : HttpResponse SeriesPayload) : List Obs :=
  if resp.status = 200 then resp.body.data else []

end Balance

namespace Cota

/-- cota.py lines 11-16: the zone listing, `[]` on any non-200 status. -/
def obtener_zonas (resp : HttpResponse (List String)) : List String :=
  if resp.status = 200 then resp.body else []

/-- cota.py lines 18-26: the historical head series, `[]` on failure. -/
def obtener_datos_historicos (resp : HttpResponse SeriesPayload) : List Obs :=
  if resp.status = 200 then resp.body.data else []

/-- cota.py lines 28-36: the model head series, `[]` on failure. -/
def obtener_datos_metamodelo (resp : HttpResponse SeriesPayload) : List Obs :=
  if resp.status = 200 then resp.body.data else []

end Cota

namespace Pronostico

/-- pronostico.py lines 12-17: the listing of wells with forecasts, `[]` on
failure. -/
def obtener_listado_pozos_pronostico (resp : HttpResponse (List String)) :
    List String :=
  if resp.status = 200 then resp.body else []

/-- pronostico.py lines 19-24: the forecast data of one well — on any
non-200 status this function returns `None`, not an empty collection. -/
def obtener_datos_pronostico (resp : HttpResponse SeriesPayload) :
    Option SeriesPayload :=
  if resp.status = 200 then some resp.body else none

/-- pronostico.py lines 26-32: the well metadata, the empty mapping on
failure. -/
def obtener_info_pozo_completa (resp : HttpResponse SeriesPayload) :
    List (String × String) :=
  if resp.status = 200 then resp.body.info else []

end Pronostico

namespace PozosHistoricos

/-- pozos_historicos.py lines 11-17: the well listing
(`data.get('pozos', [])`), `[]` on failure. -/
def obtener_listado_pozos (resp : HttpResponse (List String)) : List String :=
  if resp.status = 200 then resp.body else []

/-- pozos_historicos.py lines 19-24: the historical data of one well — on any
non-200 status this function returns `None`, not an empty collection. -/
def obtener_datos_pozo (resp : HttpResponse SeriesPayload) :
    Option SeriesPayload :=
  if resp.status = 200 then some resp.body else none

end PozosHistoricos

namespace GraficoPozos

/-- grafico_pozos.py lines 21-26 and 46-50: the two top-level fetches have no
fallback at all — a non-200 status prints a diagnostic and terminates the
whole run with `exit(1)`, modelled as `Except.error 1`. -/
def carga_geojson {α : Type} (resp : HttpResponse α) : Except Nat α :=
  if resp.status ≠ 200 then Except.error 1 else Except.ok resp.body

/-- A well feature of the `pozos-nivel-geojson` collection, as extracted by
grafico_pozos.py lines 28-32: coordinates plus the
`clasificacion_percentil` property. -/
structure PozoFeature where
  lon : Rat
  lat : Rat
  clasificacion : String
deriving DecidableEq, Repr

/-- The four bucket labels that key both `colores_map` and `conteos`
(grafico_pozos.py lines 86-101). -/
def etiquetas : List String := ["<P33", "P33-P66", "P66-P99", ">P99"]

/-- The four per-bucket counters of the `conteos` dictionary. -/
structure Conteos where
  bajo : Nat
  medioBajo : Nat
  medioAlto : Nat
  alto : Nat
deriving DecidableEq, Repr

/-- Total of the four counters. -/
def Conteos.total (c : Conteos) : Nat :=
  c.bajo + c.medioBajo + c.medioAlto + c.alto

/-- One step of the counting loop `conteos[pozo['clasificacion']] += 1`
(grafico_pozos.py lines 102-103): a label outside the four dictionary keys
raises `KeyError`, modelled as `none`. -/
def incrementa (c : Conteos) (clave : String) : Option Conteos :=
  if clave = "<P33" then some { c with bajo := c.bajo + 1 }
  else if clave = "P33-P66" then some { c with medioBajo := c.medioBajo + 1 }
  else if clave = "P66-P99" then some { c with medioAlto := c.medioAlto + 1 }
  else if clave = ">P99" then some { c with alto := c.alto + 1 }
  else none

/-- The counting loop over all well features, starting from the all-zero
dictionary; the first unrecognised label aborts the run. -/
def conteos (pozos : List PozoFeature) : Option Conteos :=
  pozos.foldlM (fun c p => incrementa c p.clasificacion) ⟨0, 0, 0, 0⟩

end GraficoPozos

/-! ### C9: what the fetches return on failure -/

/-- C9 (counterexample): two fetches return the `None` sentinel — not an
empty collection — on a failed request, and the top-level grafico_pozos.py
fetch aborts the whole run instead of proceeding. -/
theorem fetch_failure_not_always_empty :
    Pronostico.obtener_datos_pronostico ⟨404, ⟨[], []⟩⟩ = none ∧
    PozosHistoricos.obtener_datos_pozo ⟨404, ⟨[], []⟩⟩ = none ∧
    GraficoPozos.carga_geojson
        (⟨500, ([] : List GraficoPozos.PozoFeature)⟩ : HttpResponse _)
      = Except.error 1 := by
  refine ⟨rfl, rfl, rfl⟩

/-- C9 (amended): on any non-success status the listing, series and metadata
fetches of balance.py, cota.py, pronostico.py and pozos_historicos.py return
an empty collection and their callers continue with the rest; but
`obtener_datos_pronostico` and `obtener_datos_pozo` return the `None`
sentinel (their callers test for it and skip the well), and the top-level
grafico_pozos.py fetches terminate the run with exit code 1. -/
theorem fetch_failure_policy (s : Nat) (hs : s ≠ 200)
    (zs ws : List String) (p : SeriesPayload)
    (g : List GraficoPozos.PozoFeature) :
    Balance.obtener_zonas ⟨s, zs⟩ = [] ∧
    Balance.obtener_datos_historicos ⟨s, p⟩ = [] ∧
    Balance.obtener_datos_metamodelo ⟨s, p⟩ = [] ∧
    Cota.obtener_zonas ⟨s, zs⟩ = [] ∧
    Cota.obtener_datos_historicos ⟨s, p⟩ = [] ∧
    Cota.obtener_datos_metamodelo ⟨s, p⟩ = [] ∧
    Pronostico.obtener_listado_pozos_pronostico ⟨s, ws⟩ = [] ∧
    Pronostico.obtener_info_pozo_completa ⟨s, p⟩ = [] ∧
    PozosHistoricos.obtener_listado_pozos ⟨s, ws⟩ = [] ∧
    Pronostico.obtener_datos_pronostico ⟨s, p⟩ = none ∧
    PozosHistoricos.obtener_datos_pozo ⟨s, p⟩ = none ∧
    GraficoPozos.carga_geojson ⟨s, g⟩ = Except.error 1 := by
  simp [Balance.obtener_zonas, Balance.obtener_datos_historicos,
    Balance.obtener_datos_metamodelo, Cota.obtener_zonas,
    Cota.obtener_datos_historicos, Cota.obtener_datos_metamodelo,
    Pronostico.obtener_listado_pozos_pronostico,
    Pronostico.obtener_info_pozo_completa, PozosHistoricos.obtener_listado_pozos,
    Pronostico.obtener_datos_pronostico, PozosHistoricos.obtener_datos_pozo,
    GraficoPozos.carga_geojson, hs]

/-- C9 (witness): the whole failure policy evaluated at status 404. -/
theorem fetch_failure_policy_witness :
    Balance.obtener_zonas ⟨404, ["z"]⟩ = [] ∧
    Balance.obtener_datos_historicos ⟨404, ⟨[], []⟩⟩ = [] ∧
    Balance.obtener_datos_metamodelo ⟨404, ⟨[], []⟩⟩ = [] ∧
    Cota.obtener_zonas ⟨404, ["z"]⟩ = [] ∧
    Cota.obtener_datos_historicos ⟨404, ⟨[], []⟩⟩ = [] ∧
    Cota.obtener_datos_metamodelo ⟨404, ⟨[], []⟩⟩ = [] ∧
    Pronostico.obtener_listado_pozos_pronostico ⟨404, ["w"]⟩ = [] ∧
    Pronostico.obtener_info_pozo_completa ⟨404, ⟨[], []⟩⟩ = [] ∧
    PozosHistoricos.obtener_listado_pozos ⟨404, ["w"]⟩ = [] ∧
    Pronostico.obtener_datos_pronostico ⟨404, ⟨[], []⟩⟩ = none ∧
    PozosHistoricos.obtener_datos_pozo ⟨404, ⟨[], []⟩⟩ = none ∧
    GraficoPozos.carga_geojson
        (⟨404, ([] : List GraficoPozos.PozoFeature)⟩ : HttpResponse _)
      = Except.error 1 :=
  fetch_failure_policy 404 (by decide) ["z"] ["w"] ⟨[], []⟩ []

/-! ### C10: the percentile counting loop -/

namespace GraficoPozos

/-- A recognised label increments exactly one bucket and the total by one. -/
theorem incrementa_mem (c : Conteos) (clave : String) (h : clave ∈ etiquetas) :
    ∃ c₂, incrementa c clave = some c₂ ∧ c₂.total = c.total + 1 := by
  simp only [etiquetas, List.mem_cons, List.not_mem_nil, or_false] at h
  rcases h with h | h | h | h
  · subst h
    exact ⟨{ c with bajo := c.bajo + 1 },
      by rw [incrementa, if_pos rfl], by simp [Conteos.total]; omega⟩
  · subst h
    exact ⟨{ c with medioBajo := c.medioBajo + 1 },
      by rw [incrementa, if_neg (by decide), if_pos rfl],
      by simp [Conteos.total]; omega⟩
  · subst h
    exact ⟨{ c with medioAlto := c.medioAlto + 1 },
      by rw [incrementa, if_neg (by decide), if_neg (by decide), if_pos rfl],
      by simp [Conteos.total]; omega⟩
  · subst h
    exact ⟨{ c with alto := c.alto + 1 },
      by rw [incrementa, if_neg (by decide), if_neg (by decide), if_neg (by decide),
        if_pos rfl],
      by simp [Conteos.total]; omega⟩

/-- An unrecognised label raises `KeyError` (modelled as `none`). -/
theorem incrementa_not_mem (c : Conteos) (clave : String) (h : clave ∉ etiquetas) :
    incrementa c clave = none := by
  simp only [etiquetas, List.mem_cons, List.not_mem_nil, or_false, not_or] at h
  obtain ⟨h1, h2, h3, h4⟩ := h
  rw [incrementa, if_neg h1, if_neg h2, if_neg h3, if_neg h4]

/-- The counting loop from an arbitrary starting dictionary: it succeeds and
adds the list length to the total iff every label is recognised, and dies on
the first unrecognised label. -/
theorem conteos_fold_aux (pozos : List PozoFeature) (c₀ : Conteos) :
    ((∀ p ∈ pozos, p.clasificacion ∈ etiquetas) →
      ∃ c, pozos.foldlM (fun c p => incrementa c p.clasificacion) c₀ = some c ∧
        c.total = c₀.total + pozos.length) ∧
    ((∃ p ∈ pozos, p.clasificacion ∉ etiquetas) →
      pozos.foldlM (fun c p => incrementa c p.clasificacion) c₀ = none) := by
  induction pozos generalizing c₀ with
  | nil =>
    refine ⟨fun _ => ⟨c₀, rfl, by simp⟩, fun h => ?_⟩
    simp at h
  | cons p l ih =>
    constructor
    · intro hall
      obtain ⟨hp, hl⟩ := List.forall_mem_cons.mp hall
      obtain ⟨c₁, hc₁, ht₁⟩ := incrementa_mem c₀ p.clasificacion hp
      obtain ⟨c, hc, ht⟩ := (ih c₁).1 hl
      refine ⟨c, ?_, ?_⟩
      · rw [List.foldlM_cons, hc₁]
        simpa using hc
      · rw [ht, ht₁, List.length_cons]
        omega
    · intro hex
      obtain ⟨q, hq, hbad⟩ := hex
      rcases List.mem_cons.mp hq with rfl | hmem
      · rw [List.foldlM_cons, incrementa_not_mem c₀ _ hbad]
        rfl
      · by_cases hp : p.clasificacion ∈ etiquetas
        · obtain ⟨c₁, hc₁, _⟩ := incrementa_mem c₀ p.clasificacion hp
          rw [List.foldlM_cons, hc₁]
          simpa using (ih c₁).2 ⟨q, hmem, hbad⟩
        · rw [List.foldlM_cons, incrementa_not_mem c₀ _ hp]
          rfl

/-- C10 (confirmed): when every feature's classification is one of the four
labels the counting loop completes and the four bucket counts sum to the
number of features; any feature with a label outside the four makes the
lookup fail, so the four-label precondition is exactly what makes the script
total. -/
theorem conteos_spec (pozos : List PozoFeature) :
    ((∀ p ∈ pozos, p.clasificacion ∈ etiquetas) →
      ∃ c, conteos pozos = some c ∧ c.total = pozos.length) ∧
    ((∃ p ∈ pozos, p.clasificacion ∉ etiquetas) → conteos pozos = none) := by
  have h := conteos_fold_aux pozos ⟨0, 0, 0, 0⟩
  refine ⟨fun hall => ?_, h.2⟩
  obtain ⟨c, hc, ht⟩ := h.1 hall
  exact ⟨c, hc, by simpa [Conteos.total] using ht⟩

/-- Example feature list for the C10 witness: three recognised labels. -/
def pozosEjemplo : List PozoFeature :=
  [⟨0, 0, "<P33"⟩, ⟨0, 0, ">P99"⟩, ⟨0, 0, "<P33"⟩]

/-- C10 (witness): the counting loop on three recognised features totals 3. -/
theorem conteos_spec_witness :
    (∀ p ∈ pozosEjemplo, p.clasificacion ∈ etiquetas) ∧
    ∃ c, conteos pozosEjemplo = some c ∧ c.total = pozosEjemplo.length :=
  ⟨by decide, (conteos_spec pozosEjemplo).1 (by decide)⟩

end GraficoPozos

end Hydromet
